import Mathlib

/-!
Shallow embedding of the request-builder layer of `ipfshttpclient/client/files.py`.

Each Python method of `Section` (the MFS `files.*` namespace) and `Base` (the
top-level client) is translated into a pure Lean function returning a
`Request` value: the tuple (collaborator, HTTP path, positional arguments,
option map, decoder kind, optional streamed body) that the method hands to
the transport collaborator (`self._client.request` / `self._client.download`).

Python parameters that carry a default value in the `def` signature are
modelled as `Option` arguments: `none` means the caller did not supply the
parameter, and the Python default is applied inside the body with `Option.getD`.
The dynamic `opts=` keyword argument (consumed by `kwargs.setdefault("opts", …)`)
is modelled as an explicit `optsKw : Option OptMap` argument: when it is
`some m`, `setdefault` keeps the caller's map `m` and the freshly built map is
discarded, exactly as in the source.

Option maps are association lists in insertion order (Python dicts preserve
insertion order).  The external `multipart` collaborator is modelled by an
opaque `Body` value recording the constructor used and the arguments the
source passes to it.
-/

namespace IpfsFiles

/-- A primitive option value (bool / int / string), as stored in the option
dict before the transport encodes it on the wire. -/
inductive Value where
  | b (x : Bool)
  | i (x : Int)
  | s (x : String)
  deriving DecidableEq, Repr

/-- An option map: association list from option name to value, in insertion
order, mirroring a Python dict. -/
abbrev OptMap := List (String × Value)

/-- Which response decoder the builder requests (`decoder='json'` vs none). -/
inductive Decoder where
  | raw
  | json
  deriving DecidableEq, Repr

/-- Which transport collaborator the builder invokes. -/
inductive Collab where
  | request
  | download
  deriving DecidableEq, Repr

/-- The streamed multipart body handed to the transport, recorded as the
multipart constructor the source calls together with its arguments
(`multipart.stream_files` / `multipart.stream_filesystem_node`). -/
inductive Body where
  | stream_files (file : String) (chunkSize : Nat)
  | stream_filesystem_node (files : String) (recursive : Bool) (pattern : String) (chunkSize : Nat)
  deriving DecidableEq, Repr

/-- The endpoint call tuple a builder method constructs and passes, once, to
the transport collaborator. -/
structure Request where
  collab : Collab
  path : String
  args : List String
  opts : Option OptMap
  decoder : Decoder
  body : Option Body
  deriving DecidableEq, Repr

/-- The option keys actually carried by a request (empty when no `opts`
keyword is passed to the transport at all). -/
def Request.optKeys (r : Request) : List String :=
  (r.opts.getD []).map Prod.fst

/-- Per-instance client configuration read (never written) by the builder
methods: the chunk size used for multipart streaming. -/
structure Client where
  chunk_size : Nat
  deriving DecidableEq, Repr

namespace Section

/-- `Section.cp`: `args = (source, dest)`; `request('/files/cp', args, **kwargs)`. -/
def cp (source dest : String) : Request :=
  { collab := .request, path := "/files/cp", args := [source, dest],
    opts := none, decoder := .raw, body := none }

/-- `Section.ls`: `args = (path,)`; `request('/files/ls', args, decoder='json', **kwargs)`. -/
def ls (path : String) : Request :=
  { collab := .request, path := "/files/ls", args := [path],
    opts := none, decoder := .json, body := none }

/-- `Section.mkdir(path, parents=False)`:
`kwargs.setdefault("opts", {"parents": parents})`; `request('/files/mkdir', (path,), **kwargs)`. -/
def mkdir (path : String) (parents : Option Bool) (optsKw : Option OptMap) : Request :=
  let opts : OptMap := [("parents", Value.b (parents.getD false))]
  { collab := .request, path := "/files/mkdir", args := [path],
    opts := some (optsKw.getD opts), decoder := .raw, body := none }

/-- `Section.mv`: `args = (source, dest)`; `request('/files/mv', args, **kwargs)`. -/
def mv (source dest : String) : Request :=
  { collab := .request, path := "/files/mv", args := [source, dest],
    opts := none, decoder := .raw, body := none }

/-- `Section.read(path, offset=0, count=None)`:
`opts = {"offset": offset}`; `if count is not None: opts["count"] = count`;
`kwargs.setdefault("opts", opts)`; `request('/files/read', (path,), **kwargs)`. -/
def read (path : String) (offset : Option Int) (count : Option Int)
    (optsKw : Option OptMap) : Request :=
  let opts : OptMap :=
    [("offset", Value.i (offset.getD 0))] ++
      (match count with
       | some c => [("count", Value.i c)]
       | none => [])
  { collab := .request, path := "/files/read", args := [path],
    opts := some (optsKw.getD opts), decoder := .raw, body := none }

/-- `Section.rm(path, recursive=False)`:
`kwargs.setdefault("opts", {"recursive": recursive})`; `request('/files/rm', (path,), **kwargs)`. -/
def rm (path : String) (recursive : Option Bool) (optsKw : Option OptMap) : Request :=
  let opts : OptMap := [("recursive", Value.b (recursive.getD false))]
  { collab := .request, path := "/files/rm", args := [path],
    opts := some (optsKw.getD opts), decoder := .raw, body := none }

/-- `Section.stat`: `args = (path,)`; `request('/files/stat', args, decoder='json', **kwargs)`. -/
def stat (path : String) : Request :=
  { collab := .request, path := "/files/stat", args := [path],
    opts := none, decoder := .json, body := none }

/-- `Section.write(path, file, offset=0, create=False, truncate=False, count=None)`:
`opts = {"offset": offset, "create": create, "truncate": truncate}`;
`if count is not None: opts["count"] = count`; `kwargs.setdefault("opts", opts)`;
`body, headers = multipart.stream_files(file, self.chunk_size)`;
`request('/files/write', (path,), data=body, headers=headers, **kwargs)`. -/
def write (client : Client) (path : String) (file : String)
    (offset : Option Int) (create : Option Bool) (truncate : Option Bool)
    (count : Option Int) (optsKw : Option OptMap) : Request :=
  let opts : OptMap :=
    [("offset", Value.i (offset.getD 0)),
     ("create", Value.b (create.getD false)),
     ("truncate", Value.b (truncate.getD false))] ++
      (match count with
       | some c => [("count", Value.i c)]
       | none => [])
  { collab := .request, path := "/files/write", args := [path],
    opts := some (optsKw.getD opts), decoder := .raw,
    body := some (.stream_files file client.chunk_size) }

end Section

namespace Base

/-- `Base.add(files, recursive=False, pattern='**', …)`: option dict built from
`kwargs.pop` with defaults — `{"trickle": pop False, "only-hash": pop("only_hash", False),
"wrap-with-directory": pop("wrap_with_directory", False), "pin": pop True,
"nocopy": pop False}`; `if "chunker" in kwargs: opts["chunker"] = kwargs.pop("chunker")`;
`kwargs.setdefault("opts", opts)`;
`body, headers = multipart.stream_filesystem_node(files, recursive, pattern, self.chunk_size)`;
`request('/add', decoder='json', data=body, headers=headers, **kwargs)`. -/
def add (client : Client) (files : String) (recursive : Option Bool)
    (pattern : Option String) (trickle : Option Bool) (only_hash : Option Bool)
    (wrap_with_directory : Option Bool) (pin : Option Bool) (nocopy : Option Bool)
    (chunker : Option String) (optsKw : Option OptMap) : Request :=
  let opts : OptMap :=
    [("trickle", Value.b (trickle.getD false)),
     ("only-hash", Value.b (only_hash.getD false)),
     ("wrap-with-directory", Value.b (wrap_with_directory.getD false)),
     ("pin", Value.b (pin.getD true)),
     ("nocopy", Value.b (nocopy.getD false))] ++
      (match chunker with
       | some c => [("chunker", Value.s c)]
       | none => [])
  { collab := .request, path := "/add", args := [],
    opts := some (optsKw.getD opts), decoder := .json,
    body := some (.stream_filesystem_node files (recursive.getD false)
      (pattern.getD "**") client.chunk_size) }

/-- `Base.file_ls`: `args = (multihash,)`; `request('/file/ls', args, decoder='json', **kwargs)`. -/
def file_ls (multihash : String) : Request :=
  { collab := .request, path := "/file/ls", args := [multihash],
    opts := none, decoder := .json, body := none }

/-- `Base.get`: `args = (multihash,)`; `download('/get', args, **kwargs)` —
the only builder method that invokes the download collaborator. -/
def get (multihash : String) : Request :=
  { collab := .download, path := "/get", args := [multihash],
    opts := none, decoder := .raw, body := none }

/-- `Base.cat(multihash, offset=0, length=-1)`:
`opts = {}`; `if offset != 0: opts['offset'] = offset`;
`if length != -1: opts['length'] = length`; `kwargs.setdefault('opts', opts)`;
`request('/cat', (multihash,), **kwargs)`. -/
def cat (multihash : String) (offset : Option Int) (length : Option Int)
    (optsKw : Option OptMap) : Request :=
  let o := offset.getD 0
  let l := length.getD (-1)
  let opts : OptMap :=
    (if o ≠ 0 then [("offset", Value.i o)] else []) ++
      (if l ≠ -1 then [("length", Value.i l)] else [])
  { collab := .request, path := "/cat", args := [multihash],
    opts := some (optsKw.getD opts), decoder := .raw, body := none }

/-- `Base.ls`: `args = (multihash,)`; `request('/ls', args, decoder='json', **kwargs)`. -/
def ls (multihash : String) : Request :=
  { collab := .request, path := "/ls", args := [multihash],
    opts := none, decoder := .json, body := none }

end Base

/-- One invocation of a builder method, with its arguments. -/
inductive Call where
  | cp (source dest : String)
  | files_ls (path : String)
  | mkdir (path : String) (parents : Option Bool) (optsKw : Option OptMap)
  | mv (source dest : String)
  | read (path : String) (offset count : Option Int) (optsKw : Option OptMap)
  | rm (path : String) (recursive : Option Bool) (optsKw : Option OptMap)
  | stat (path : String)
  | write (path file : String) (offset : Option Int) (create truncate : Option Bool)
      (count : Option Int) (optsKw : Option OptMap)
  | add (files : String) (recursive : Option Bool) (pattern : Option String)
      (trickle only_hash wrap_with_directory pin nocopy : Option Bool)
      (chunker : Option String) (optsKw : Option OptMap)
  | file_ls (multihash : String)
  | get (multihash : String)
  | cat (multihash : String) (offset length : Option Int) (optsKw : Option OptMap)
  deriving DecidableEq

/-- Executing one builder call against the client instance: the constructed
request together with the instance state afterwards.  No method of the source
assigns any instance attribute (`self.chunk_size` is only read), so every
branch returns the state unchanged. -/
def step (c : Client) : Call → Request × Client
  | .cp source dest => (Section.cp source dest, c)
  | .files_ls path => (Section.ls path, c)
  | .mkdir path parents optsKw => (Section.mkdir path parents optsKw, c)
  | .mv source dest => (Section.mv source dest, c)
  | .read path offset count optsKw => (Section.read path offset count optsKw, c)
  | .rm path recursive optsKw => (Section.rm path recursive optsKw, c)
  | .stat path => (Section.stat path, c)
  | .write path file offset create truncate count optsKw =>
      (Section.write c path file offset create truncate count optsKw, c)
  | .add files recursive pattern trickle only_hash wrap pin nocopy chunker optsKw =>
      (Base.add c files recursive pattern trickle only_hash wrap pin nocopy chunker optsKw, c)
  | .file_ls multihash => (Base.file_ls multihash, c)
  | .get multihash => (Base.get multihash, c)
  | .cat multihash offset length optsKw => (Base.cat multihash offset length optsKw, c)

/-- Executing a sequence of builder calls, threading the instance state. -/
def run : Client → List Call → List Request
  | _, [] => []
  | c, k :: ks => (step c k).1 :: run (step c k).2 ks

end IpfsFiles

namespace IpfsFiles

lemma step_state (c : Client) (k : Call) : (step c k).2 = c := by
  cases k <;> rfl

lemma run_append (c : Client) (ks1 ks2 : List Call) :
    run c (ks1 ++ ks2) = run c ks1 ++ run c ks2 := by
  induction ks1 with
  | nil => rfl
  | cons k ks ih => simp [run, step_state, ih]

/-- C1 counterexample: the claim says that in a `read` call an option whose
supplied value equals the sentinel default (`offset` equal to `0`) is omitted
from the option map; but `read("/x", offset=0)` includes the key `"offset"`. -/
theorem c1_read_offset_zero_not_omitted :
    "offset" ∈ (Section.read "/x" (some 0) none none).optKeys := by
  decide

/-- C1 (amended): for `cat`, an option key is emitted iff its value deviates
from the sentinel default (`offset ≠ 0`, `length ≠ -1`); for `read`, the key
`"count"` is emitted iff the caller supplied a count, while `"offset"` is
always emitted, even when its value is the default `0`. -/
theorem c1_sentinel_default_option_policy (mh p : String)
    (offset length count : Option Int) :
    ("offset" ∈ (Base.cat mh offset length none).optKeys ↔ offset.getD 0 ≠ 0)
    ∧ ("length" ∈ (Base.cat mh offset length none).optKeys ↔ length.getD (-1) ≠ -1)
    ∧ ("count" ∈ (Section.read p offset count none).optKeys ↔ count.isSome)
    ∧ "offset" ∈ (Section.read p offset count none).optKeys := by
  refine ⟨?_, ?_, ?_, ?_⟩
  · by_cases ho : offset.getD 0 = 0 <;> by_cases hl : length.getD (-1) = -1 <;>
      simp [Base.cat, Request.optKeys, ho, hl]
  · by_cases ho : offset.getD 0 = 0 <;> by_cases hl : length.getD (-1) = -1 <;>
      simp [Base.cat, Request.optKeys, ho, hl]
  · cases count <;> simp [Section.read, Request.optKeys]
  · cases count <;> simp [Section.read, Request.optKeys]

/-- C2: every `read(path, offset, count)` call (without an explicit `opts`
keyword) builds an option map that always includes `"offset"` — even when the
offset is `0` — and includes `"count"` iff the caller supplied a count. -/
theorem c2_read_offset_always_count_iff_supplied (p : String)
    (offset count : Option Int) :
    "offset" ∈ (Section.read p offset count none).optKeys
    ∧ ("count" ∈ (Section.read p offset count none).optKeys ↔ count.isSome) := by
  constructor
  · cases count <;> simp [Section.read, Request.optKeys]
  · cases count <;> simp [Section.read, Request.optKeys]

/-- C3: every `add` call uses the hyphenated keys `"only-hash"` and
`"wrap-with-directory"` (never the underscored spellings), includes
`"trickle"` and `"nocopy"` defaulting to `false` and `"pin"` defaulting to
`true`, and includes `"chunker"` iff the caller supplied one. -/
theorem c3_add_option_keys (c : Client) (files : String)
    (recursive : Option Bool) (pattern : Option String)
    (trickle only_hash wrap pin nocopy : Option Bool) (chunker : Option String) :
    ("only-hash", Value.b (only_hash.getD false)) ∈
        (Base.add c files recursive pattern trickle only_hash wrap pin nocopy chunker none).opts.getD []
    ∧ "only_hash" ∉
        (Base.add c files recursive pattern trickle only_hash wrap pin nocopy chunker none).optKeys
    ∧ ("wrap-with-directory", Value.b (wrap.getD false)) ∈
        (Base.add c files recursive pattern trickle only_hash wrap pin nocopy chunker none).opts.getD []
    ∧ "wrap_with_directory" ∉
        (Base.add c files recursive pattern trickle only_hash wrap pin nocopy chunker none).optKeys
    ∧ ("trickle", Value.b (trickle.getD false)) ∈
        (Base.add c files recursive pattern trickle only_hash wrap pin nocopy chunker none).opts.getD []
    ∧ ("nocopy", Value.b (nocopy.getD false)) ∈
        (Base.add c files recursive pattern trickle only_hash wrap pin nocopy chunker none).opts.getD []
    ∧ ("pin", Value.b (pin.getD true)) ∈
        (Base.add c files recursive pattern trickle only_hash wrap pin nocopy chunker none).opts.getD []
    ∧ ("chunker" ∈
        (Base.add c files recursive pattern trickle only_hash wrap pin nocopy chunker none).optKeys
        ↔ chunker.isSome) := by
  refine ⟨?_, ?_, ?_, ?_, ?_, ?_, ?_, ?_⟩ <;>
    cases chunker <;> simp [Base.add, Request.optKeys]

/-- C4: every `write(path, stream, offset, create, truncate, count)` call
(without an explicit `opts` keyword) builds an option map always containing
`"offset"`, `"create"` and `"truncate"`, containing `"count"` iff a count was
supplied, and its body is the multipart stream of the given byte source built
with the client's configured chunk size. -/
theorem c4_write_options_and_body (c : Client) (p file : String)
    (offset : Option Int) (create truncate : Option Bool) (count : Option Int) :
    "offset" ∈ (Section.write c p file offset create truncate count none).optKeys
    ∧ "create" ∈ (Section.write c p file offset create truncate count none).optKeys
    ∧ "truncate" ∈ (Section.write c p file offset create truncate count none).optKeys
    ∧ ("count" ∈ (Section.write c p file offset create truncate count none).optKeys
        ↔ count.isSome)
    ∧ (Section.write c p file offset create truncate count none).body
        = some (Body.stream_files file c.chunk_size) := by
  refine ⟨?_, ?_, ?_, ?_, ?_⟩ <;>
    cases count <;> simp [Section.write, Request.optKeys]

/-- C5: every `mkdir(path, parents)` call builds exactly the option map
`{"parents": parents}` and every `rm(path, recursive)` call builds exactly
`{"recursive": recursive}`, with value `false` when the parameter is not
supplied (always-present policy). -/
theorem c5_mkdir_rm_always_present (p q : String) (parents recursive : Option Bool) :
    (Section.mkdir p parents none).opts
        = some [("parents", Value.b (parents.getD false))]
    ∧ (Section.rm q recursive none).opts
        = some [("recursive", Value.b (recursive.getD false))] := by
  exact ⟨rfl, rfl⟩

/-- C6: every `cp(source, dest)` call carries positional arguments exactly
`[source, dest]` in that order and sets no option keys. -/
theorem c6_cp_args_and_no_options (s d : String) :
    (Section.cp s d).args = [s, d] ∧ (Section.cp s d).optKeys = [] := by
  exact ⟨rfl, rfl⟩

/-- C7: every `get(multihash)` call invokes the download collaborator with
path `/get` and positional argument `[multihash]`, and `get` is the only
builder operation whose call invokes the download collaborator (all others
use `request`). -/
theorem c7_get_uses_download_only (mh : String) (c : Client) :
    (Base.get mh).collab = Collab.download
    ∧ (Base.get mh).path = "/get"
    ∧ (Base.get mh).args = [mh]
    ∧ ∀ k : Call, ((step c k).1.collab = Collab.download ↔ ∃ m, k = Call.get m) := by
  refine ⟨rfl, rfl, rfl, ?_⟩
  intro k
  cases k <;>
    simp [step, Section.cp, Section.ls, Section.mkdir, Section.mv, Section.read,
      Section.rm, Section.stat, Section.write, Base.add, Base.file_ls, Base.get,
      Base.cat, Base.ls]

/-- C8: every `files.ls(path)` and `files.stat(path)` call carries the single
positional argument `[path]`, is decoded as json, and sets no option keys. -/
theorem c8_ls_stat_shape (p q : String) :
    (Section.ls p).args = [p] ∧ (Section.ls p).decoder = Decoder.json
    ∧ (Section.ls p).optKeys = []
    ∧ (Section.stat q).args = [q] ∧ (Section.stat q).decoder = Decoder.json
    ∧ (Section.stat q).optKeys = [] := by
  exact ⟨rfl, rfl, rfl, rfl, rfl, rfl⟩

/-- C9: every builder call is deterministic and free of shared mutable state:
no call changes the client instance state, and consequently the request built
for a call is the same whatever calls preceded it (fresh option map per
call). -/
theorem c9_deterministic_stateless :
    (∀ (c : Client) (k : Call), (step c k).2 = c)
    ∧ (∀ (c : Client) (ks : List Call) (k : Call),
        run c (ks ++ [k]) = run c ks ++ [(step c k).1]) := by
  constructor
  · exact step_state
  · intro c ks k
    rw [run_append]
    rfl

/-- C10: for each option-building operation (`mkdir`, `read`, `rm`, `write`,
`add`, `cat`), an explicit caller-supplied `opts` keyword argument replaces
the builder's constructed option map entirely — the request carries exactly
the caller's map, so even always-present keys are absent unless the caller
includes them. -/
theorem c10_explicit_opts_discards_built (c : Client) (p file files mh : String)
    (parents recursive create truncate trickle only_hash wrap pin nocopy : Option Bool)
    (offset count length : Option Int) (pattern chunker : Option String) (m : OptMap) :
    (Section.mkdir p parents (some m)).opts = some m
    ∧ (Section.read p offset count (some m)).opts = some m
    ∧ (Section.rm p recursive (some m)).opts = some m
    ∧ (Section.write c p file offset create truncate count (some m)).opts = some m
    ∧ (Base.add c files recursive pattern trickle only_hash wrap pin nocopy chunker (some m)).opts
        = some m
    ∧ (Base.cat mh offset length (some m)).opts = some m := by
  exact ⟨rfl, rfl, rfl, rfl, rfl, rfl⟩

end IpfsFiles
